import Mathlib

/-!
Verification development for the BuilderWeb build-orchestration subsystem.

The definitions below are shallow embeddings of the TypeScript sources:
* `BuildQueue` and its operations embed the class `BuildQueue`
  (src/unnamed/part_003).  JS `Array.prototype.sort` is stable, so it is
  modelled by `List.mergeSort`; `Date.getTime()` values are `Nat`
  timestamps; `Math.max(0, n-1)` is truncated `Nat` subtraction.
-/

namespace BuilderWeb

/-- One waiting entry of the build queue (interface `QueueItem`).
The `startedAt` field is set on an item only after it has left the
queue, so it does not influence any queue operation and is omitted. -/
structure QueueItem where
  buildId : String
  projectId : String
  priority : Int
  createdAt : Nat
deriving DecidableEq, Repr

/-- The comparator of `BuildQueue.add`, turned into a boolean "may come
before" relation: `itemLE a b` holds iff `comparator(a,b) ≤ 0`, where
the source comparator is `b.priority - a.priority` when priorities
differ and `a.createdAt - b.createdAt` otherwise. -/
def itemLE (a b : QueueItem) : Bool :=
  if a.priority ≠ b.priority then decide (b.priority ≤ a.priority)
  else decide (a.createdAt ≤ b.createdAt)

/-- State of the class `BuildQueue`: the waiting list, the active build
count and the configured maximum.  `processing` is dead state in the
source (never read) and is omitted. -/
structure BuildQueue where
  queue : List QueueItem
  activeBuildCount : Nat
  maxConcurrentBuilds : Int
deriving DecidableEq, Repr

/-- The constructor `new BuildQueue(maxConcurrentBuilds)`. -/
def BuildQueue.mk0 (maxConcurrentBuilds : Int) : BuildQueue :=
  ⟨[], 0, maxConcurrentBuilds⟩

/-- `add(buildId, projectId, priority)`: push the new item, then sort
the whole queue with the priority-descending / enqueue-time-ascending
comparator.  `now` is the `new Date()` timestamp of the push. -/
def BuildQueue.add (q : BuildQueue) (buildId projectId : String)
    (priority : Int) (now : Nat) : BuildQueue :=
  { q with queue :=
      (q.queue ++ [(⟨buildId, projectId, priority, now⟩ : QueueItem)]).mergeSort itemLE }

/-- `remove(buildId)`: splice out the first matching item, reporting
whether one was found. -/
def BuildQueue.removeB (q : BuildQueue) (buildId : String) :
    Bool × BuildQueue :=
  match q.queue.findIdx? (fun item => item.buildId == buildId) with
  | some i => (true, { q with queue := q.queue.eraseIdx i })
  | none => (false, q)

/-- `getPosition(buildId)`: 0-based index in the waiting list, `-1` if
absent. -/
def BuildQueue.getPosition (q : BuildQueue) (buildId : String) : Int :=
  match q.queue.findIdx? (fun item => item.buildId == buildId) with
  | some i => (i : Int)
  | none => -1

/-- `canStartBuild()`: `activeBuildCount < maxConcurrentBuilds`. -/
def BuildQueue.canStartBuild (q : BuildQueue) : Bool :=
  decide ((q.activeBuildCount : Int) < q.maxConcurrentBuilds)

/-- `startBuild(buildId)`: fails when the item is not waiting or no
slot is free; otherwise removes the item and increments the active
count. -/
def BuildQueue.startBuild (q : BuildQueue) (buildId : String) :
    Bool × BuildQueue :=
  if (q.queue.find? (fun item => item.buildId == buildId)).isNone then
    (false, q)
  else if !q.canStartBuild then (false, q)
  else
    let q1 := (q.removeB buildId).2
    (true, { q1 with activeBuildCount := q1.activeBuildCount + 1 })

/-- `completeBuild(buildId)`: `activeBuildCount = Math.max(0,
activeBuildCount - 1)`; the build id argument is ignored by the
source. -/
def BuildQueue.completeBuild (q : BuildQueue) (_buildId : String) :
    BuildQueue :=
  { q with activeBuildCount := q.activeBuildCount - 1 }

/-- `setMaxConcurrentBuilds(max)`: `maxConcurrentBuilds = Math.max(1, max)`. -/
def BuildQueue.setMaxConcurrentBuilds (q : BuildQueue) (m : Int) :
    BuildQueue :=
  { q with maxConcurrentBuilds := max 1 m }

/-- One public mutation of the `BuildQueue` class. -/
inductive QOp where
  | add (buildId projectId : String) (priority : Int) (now : Nat)
  | removeOp (buildId : String)
  | start (buildId : String)
  | complete (buildId : String)
  | setMax (m : Int)
deriving DecidableEq, Repr

def applyQOp (q : BuildQueue) : QOp → BuildQueue
  | .add b p pr n => q.add b p pr n
  | .removeOp b => (q.removeB b).2
  | .start b => (q.startBuild b).2
  | .complete b => q.completeBuild b
  | .setMax m => q.setMaxConcurrentBuilds m

def runQOps (q : BuildQueue) (ops : List QOp) : BuildQueue :=
  ops.foldl applyQOp q

def QOp.isSetMax : QOp → Bool
  | .setMax _ => true
  | _ => false

theorem itemLE_total (a b : QueueItem) : itemLE a b || itemLE b a := by
  simp only [itemLE]
  by_cases h : a.priority = b.priority
  · simp [h]
    omega
  · simp [h, Ne.symm h]
    omega

theorem itemLE_trans (a b c : QueueItem) :
    itemLE a b → itemLE b c → itemLE a c := by
  simp only [itemLE]
  by_cases hab : a.priority = b.priority <;>
    by_cases hbc : b.priority = c.priority <;>
      by_cases hac : a.priority = c.priority <;>
        simp_all <;> omega

theorem removeB_active (q : BuildQueue) (b : String) :
    ((q.removeB b).2).activeBuildCount = q.activeBuildCount := by
  unfold BuildQueue.removeB
  split <;> rfl

theorem removeB_max (q : BuildQueue) (b : String) :
    ((q.removeB b).2).maxConcurrentBuilds = q.maxConcurrentBuilds := by
  unfold BuildQueue.removeB
  split <;> rfl

theorem startBuild_true_of_below_max (q : BuildQueue) (b : String)
    (h : (q.startBuild b).1 = true) :
    (q.activeBuildCount : Int) < q.maxConcurrentBuilds := by
  unfold BuildQueue.startBuild at h
  split at h
  · simp at h
  · split at h
    · simp at h
    · rename_i hcan
      simp only [Bool.not_eq_true, Bool.not_eq_false] at hcan
      simpa [BuildQueue.canStartBuild] using hcan

theorem applyQOp_inv (q : BuildQueue) (op : QOp) (hop : op.isSetMax = false)
    (h : (q.activeBuildCount : Int) ≤ q.maxConcurrentBuilds) :
    ((applyQOp q op).activeBuildCount : Int) ≤
      (applyQOp q op).maxConcurrentBuilds := by
  cases op with
  | add b p pr n => simpa [applyQOp, BuildQueue.add] using h
  | removeOp b => simpa [applyQOp, removeB_active, removeB_max] using h
  | start b =>
      have hlt := startBuild_true_of_below_max q b
      simp only [applyQOp, BuildQueue.startBuild] at hlt ⊢
      split
      · exact h
      · split
        · exact h
        · rename_i hcan
          simp [BuildQueue.canStartBuild] at hcan
          show (((q.removeB b).2.activeBuildCount + 1 : Nat) : Int) ≤
            (q.removeB b).2.maxConcurrentBuilds
          rw [removeB_active, removeB_max]
          push_cast
          omega
  | complete b =>
      obtain ⟨qq, a, mx⟩ := q
      simp only [applyQOp, BuildQueue.completeBuild] at h ⊢
      omega
  | setMax m => simp [QOp.isSetMax] at hop

theorem runQOps_inv (ops : List QOp) : ∀ (q : BuildQueue),
    (∀ op ∈ ops, op.isSetMax = false) →
    (q.activeBuildCount : Int) ≤ q.maxConcurrentBuilds →
    ((runQOps q ops).activeBuildCount : Int) ≤
      (runQOps q ops).maxConcurrentBuilds := by
  induction ops with
  | nil => intro q _ h; simpa [runQOps] using h
  | cons op rest ih =>
      intro q hops h
      have h1 := applyQOp_inv q op (hops op (by simp)) h
      simpa [runQOps] using
        ih (applyQOp q op) (fun o ho => hops o (by simp [ho])) h1

/-- C1 (amended): `startBuild` returns `true` only when the active count
is strictly below the configured maximum, and the invariant
`activeBuildCount ≤ maxConcurrentBuilds` is preserved by `add`,
`startBuild`, `completeBuild` and `remove` — every queue operation
except `setMaxConcurrentBuilds`, which can lower the maximum below the
current active count. -/
theorem C1_concurrency_bound_amended (m : Int) (ops : List QOp)
    (hm : 0 ≤ m) (hops : ∀ op ∈ ops, op.isSetMax = false) :
    ((runQOps (BuildQueue.mk0 m) ops).activeBuildCount : Int) ≤
      (runQOps (BuildQueue.mk0 m) ops).maxConcurrentBuilds
    ∧ ∀ (q : BuildQueue) (b : String), (q.startBuild b).1 = true →
        (q.activeBuildCount : Int) < q.maxConcurrentBuilds := by
  constructor
  · exact runQOps_inv ops (BuildQueue.mk0 m) hops (by simpa [BuildQueue.mk0] using hm)
  · exact startBuild_true_of_below_max

/-- Witness for C1_concurrency_bound_amended at a concrete run. -/
theorem C1_concurrency_bound_amended_witness :
    ((runQOps (BuildQueue.mk0 3)
        [QOp.add "a" "p" 0 0, QOp.start "a"]).activeBuildCount : Int) ≤
      (runQOps (BuildQueue.mk0 3)
        [QOp.add "a" "p" 0 0, QOp.start "a"]).maxConcurrentBuilds :=
  (C1_concurrency_bound_amended 3 [QOp.add "a" "p" 0 0, QOp.start "a"]
    (by norm_num) (by decide)).1

/-- C1 (counterexample): the concurrency bound is not an invariant of
every queue operation — from a queue with maximum 2 and two started
builds, `setMaxConcurrentBuilds 1` yields a state whose active count 2
exceeds the configured maximum 1. -/
theorem C1_counterexample :
    ¬ (((runQOps (BuildQueue.mk0 2)
          [QOp.add "a" "p" 0 0, QOp.add "b" "p" 0 1,
           QOp.start "a", QOp.start "b", QOp.setMax 1]).activeBuildCount : Int) ≤
        (runQOps (BuildQueue.mk0 2)
          [QOp.add "a" "p" 0 0, QOp.add "b" "p" 0 1,
           QOp.start "a", QOp.start "b", QOp.setMax 1]).maxConcurrentBuilds) := by
  simp [runQOps, applyQOp, BuildQueue.add, BuildQueue.mk0, BuildQueue.startBuild,
    BuildQueue.removeB, BuildQueue.canStartBuild, BuildQueue.setMaxConcurrentBuilds,
    List.mergeSort, itemLE, List.findIdx?]

/-- Concrete scenario of C4: maximum one slot, one build running, and a
priority-0 and then a priority-5 item enqueued. -/
def c4q : BuildQueue :=
  let q1 := (BuildQueue.mk0 1).add "running" "p" 0 0
  let q2 := (q1.startBuild "running").2
  let q3 := q2.add "low" "p" 0 1
  q3.add "high" "p" 5 2

/-- C4: after any enqueue the waiting list is sorted by priority
descending with ties broken by enqueue time ascending, and in the
concrete one-slot scenario the later priority-5 item sits at position 0,
cannot start while the slot is busy, and starts first once the slot
frees. -/
theorem C4_queue_ordering (q : BuildQueue) (b p : String) (pr : Int) (n : Nat) :
    ((q.add b p pr n).queue).Pairwise
      (fun x y => y.priority < x.priority ∨
        (x.priority = y.priority ∧ x.createdAt ≤ y.createdAt))
    ∧ c4q.getPosition "high" = 0 ∧ c4q.getPosition "low" = 1
    ∧ (c4q.startBuild "high").1 = false
    ∧ ((c4q.completeBuild "running").startBuild "high").1 = true := by
  refine ⟨?_, ?_⟩
  · have h := @List.sorted_mergeSort QueueItem itemLE itemLE_trans itemLE_total
      (q.queue ++ [⟨b, p, pr, n⟩])
    refine h.imp ?_
    intro x y hxy
    by_cases hp : x.priority = y.priority
    · simp only [itemLE, hp, ne_eq, not_true_eq_false, if_false, ite_false,
        decide_eq_true_eq] at hxy
      right
      exact ⟨hp, by simpa using hxy⟩
    · simp only [itemLE, hp, ne_eq, not_false_eq_true, if_true, ite_true,
        decide_eq_true_eq] at hxy
      left
      omega
  · simp [c4q, BuildQueue.mk0, BuildQueue.add, BuildQueue.startBuild,
      BuildQueue.removeB, BuildQueue.canStartBuild, BuildQueue.completeBuild,
      BuildQueue.getPosition, List.mergeSort, itemLE, List.findIdx?]

/-- A queue with two started builds, used against the idempotence part
of the completeBuild contract. -/
def c7q : BuildQueue :=
  runQOps (BuildQueue.mk0 3)
    [QOp.add "a" "p" 0 0, QOp.add "b" "p" 0 1, QOp.start "a", QOp.start "b"]

/-- C7 (counterexample): `completeBuild` is not idempotent — from a
reachable queue with two active builds, calling it twice for the same
build id leaves active count 0, while calling it once leaves 1. -/
theorem C7_counterexample :
    (c7q.completeBuild "a").completeBuild "a" ≠ c7q.completeBuild "a" := by
  simp [c7q, runQOps, applyQOp, BuildQueue.add, BuildQueue.mk0,
    BuildQueue.startBuild, BuildQueue.removeB, BuildQueue.canStartBuild,
    BuildQueue.completeBuild, List.mergeSort, itemLE, List.findIdx?]

/-- C7 (amended): `completeBuild` decrements the active count by one,
saturating at zero, ignores its build id argument and touches no other
field; it is idempotent exactly when the active count is at most one. -/
theorem C7_completeBuild_amended (q : BuildQueue) (b1 b2 : String) :
    (q.completeBuild b1).activeBuildCount = q.activeBuildCount - 1
    ∧ (q.completeBuild b1).queue = q.queue
    ∧ (q.completeBuild b1).maxConcurrentBuilds = q.maxConcurrentBuilds
    ∧ ((q.completeBuild b2).completeBuild b1 = q.completeBuild b1 ↔
        q.activeBuildCount ≤ 1) := by
  obtain ⟨qq, a, mx⟩ := q
  refine ⟨rfl, rfl, rfl, ?_⟩
  simp only [BuildQueue.completeBuild, BuildQueue.mk.injEq, true_and, and_true]
  omega

/-! Signing pipeline (function `signAPK` in src/unnamed/part_010).  The
three external commands (zipalign, apksigner sign, apksigner verify) are
abstracted by an environment telling whether each succeeds; the function
records which steps ran, whether the signed output file was produced, and
the returned value or raised error. -/

/-- The three external steps of the signing pipeline. -/
inductive SignStep where
  | align | sign | verify
deriving DecidableEq, Repr

/-- Observable outcome of `signAPK`: the executed external steps in
order, whether the signed output file exists afterwards, and the
returned path or raised error. -/
structure SignOutcome where
  executed : List SignStep
  signedFileExists : Bool
  result : Except String String
deriving Repr

/-- The `-signed.apk` output path derived from the unsigned path.  (The
JS `String.replace` rewrites the first `.apk` occurrence; paths here are
opaque names, nothing below depends on the rewrite.) -/
def signedApkPath (p : String) : String := p.replace ".apk" "-signed.apk"

def SignOutcome.isError (o : SignOutcome) : Bool :=
  match o.result with
  | .error _ => true
  | .ok _ => false

/-- `signAPK(unsignedApkPath, keystoreConfig)`: zipalign, then apksigner
sign, then apksigner verify, failing fast on the first command error.
On verify failure the signed file was already produced (the catch block
deletes only the aligned intermediate) but the function still throws. -/
def signAPK (env : SignStep → Bool) (unsignedApkPath : String) : SignOutcome :=
  if !env .align then
    { executed := [.align], signedFileExists := false,
      result := .error "Failed to sign APK" }
  else if !env .sign then
    { executed := [.align, .sign], signedFileExists := false,
      result := .error "Failed to sign APK" }
  else if !env .verify then
    { executed := [.align, .sign, .verify], signedFileExists := true,
      result := .error "Failed to sign APK" }
  else
    { executed := [.align, .sign, .verify], signedFileExists := true,
      result := .ok (signedApkPath unsignedApkPath) }

/-- C2: the executed steps are always an initial segment of
align, sign, verify in that strict order (so sign never runs before
align); a returned success implies all three ran and verify passed; and
when align and sign succeed but verify fails, signAPK raises even though
the signed file was produced. -/
theorem C2_signing_protocol_order (env : SignStep → Bool) (p : String) :
    ((signAPK env p).executed <+:
        [SignStep.align, SignStep.sign, SignStep.verify])
    ∧ (∀ out, (signAPK env p).result = .ok out →
        (signAPK env p).executed =
          [SignStep.align, SignStep.sign, SignStep.verify]
        ∧ env .verify = true)
    ∧ (env .align = true → env .sign = true → env .verify = false →
        (signAPK env p).signedFileExists = true
        ∧ (signAPK env p).isError = true) := by
  by_cases ha : env .align <;> by_cases hs : env .sign <;>
    by_cases hv : env .verify <;>
      simp [signAPK, ha, hs, hv, SignOutcome.isError]

/-- Witness for C2_signing_protocol_order: align and sign succeed,
verify fails, and a signed-but-unverified file exists while the call
errors. -/
theorem C2_signing_protocol_order_witness :
    (signAPK (fun s => s != SignStep.verify) "app.apk").signedFileExists = true :=
  ((C2_signing_protocol_order (fun s => s != SignStep.verify) "app.apk").2.2
    rfl rfl rfl).1

/-! Keystore manager (functions `generateKeystore` and
`getOrCreateKeystore` in src/unnamed/part_010).  The file system is
abstracted by the parsed content of each persisted JSON config and a
file-existence predicate; `generateRandomPassword()` draws are passed in
as parameters, and `keytoolOk` tells whether the external keytool
command succeeds. -/

/-- Configuration record `KeystoreConfig`, with the `distinguishedName`
sub-object flattened into the six `dn` fields. -/
structure KeystoreConfig where
  keystorePath : String
  keystorePassword : String
  keyAlias : String
  keyPassword : String
  validity : Nat
  dnCommonName : String
  dnOrganizationalUnit : String
  dnOrganization : String
  dnLocality : String
  dnState : String
  dnCountry : String
deriving DecidableEq, Repr

def DEFAULT_KEYSTORE_DIR : String := "keystores"

/-- Path of the key-material file for a project. -/
def keystoreFilePath (projectId : String) : String :=
  DEFAULT_KEYSTORE_DIR ++ "/" ++ projectId ++ ".keystore"

/-- Path of the persisted JSON config for a project. -/
def configFilePath (projectId : String) : String :=
  DEFAULT_KEYSTORE_DIR ++ "/" ++ projectId ++ ".json"

/-- File-system state visible to the keystore manager: parsed content of
each persisted config file (`none` = absent or unparsable) and which
files exist on disk. -/
structure KsFs where
  configAt : String → Option KeystoreConfig
  fileExists : String → Bool

/-- The fresh config `generateKeystore` builds when no overrides are
passed (the only way it is called): derived keystore path and alias,
the two random passwords, validity 10000 and the default
distinguished-name fields. -/
def defaultKeystoreConfig (projectId p1 p2 : String) : KeystoreConfig :=
  { keystorePath := keystoreFilePath projectId
    keystorePassword := p1
    keyAlias := projectId ++ "-key"
    keyPassword := p2
    validity := 10000
    dnCommonName := "Android Studio IDE"
    dnOrganizationalUnit := "Development"
    dnOrganization := "Android Studio"
    dnLocality := "Jakarta"
    dnState := "DKI Jakarta"
    dnCountry := "ID" }

/-- `generateKeystore(projectId)`: build the default config and run
keytool, which creates the keystore file on success and makes the call
throw on failure. -/
def generateKeystore (fs : KsFs) (projectId p1 p2 : String)
    (keytoolOk : Bool) : Except String (KeystoreConfig × KsFs) :=
  let cfg := defaultKeystoreConfig projectId p1 p2
  if keytoolOk then
    .ok (cfg, { fs with fileExists := fun q =>
      if q = cfg.keystorePath then true else fs.fileExists q })
  else .error "Failed to generate keystore"

/-- The catch branch of `getOrCreateKeystore`: generate a new identity
and persist its JSON config. -/
def createAndPersistKeystore (fs : KsFs) (projectId p1 p2 : String)
    (keytoolOk : Bool) : Except String (KeystoreConfig × KsFs) :=
  match generateKeystore fs projectId p1 p2 keytoolOk with
  | .error e => .error e
  | .ok (cfg, fs1) =>
      .ok (cfg, { fs1 with configAt := fun q =>
        if q = configFilePath projectId then some cfg else fs1.configAt q })

/-- `getOrCreateKeystore(projectId)`: read the persisted config; if it
parses and its referenced keystore file exists, return it unchanged with
no writes; on any failure of the read path, generate and persist a new
identity. -/
def getOrCreateKeystore (fs : KsFs) (projectId p1 p2 : String)
    (keytoolOk : Bool) : Except String (KeystoreConfig × KsFs) :=
  match fs.configAt (configFilePath projectId) with
  | some config =>
      if fs.fileExists config.keystorePath then .ok (config, fs)
      else createAndPersistKeystore fs projectId p1 p2 keytoolOk
  | none => createAndPersistKeystore fs projectId p1 p2 keytoolOk

/-- C3: when a persisted config exists and its keystore file is on disk,
getOrCreateKeystore returns it unchanged with no side effects; when no
config is persisted, a successful call returns the config derived from
the project id (alias `pid-key`, path `keystores/pid.keystore`); and any
successful call is a fixpoint — a second call for the same project id on
the resulting state returns the identical config and state, so both
calls agree on alias and keystore path. -/
theorem C3_keystore_stable (fs : KsFs) (pid p1 p2 q1 q2 : String) :
    (∀ c, fs.configAt (configFilePath pid) = some c →
        fs.fileExists c.keystorePath = true →
        getOrCreateKeystore fs pid p1 p2 true = .ok (c, fs))
    ∧ (fs.configAt (configFilePath pid) = none →
        ∀ c fs1, getOrCreateKeystore fs pid p1 p2 true = .ok (c, fs1) →
          c.keyAlias = pid ++ "-key" ∧ c.keystorePath = keystoreFilePath pid)
    ∧ (∀ c fs1, getOrCreateKeystore fs pid p1 p2 true = .ok (c, fs1) →
        getOrCreateKeystore fs1 pid q1 q2 true = .ok (c, fs1)) := by
  refine ⟨?_, ?_, ?_⟩
  · intro c hc hex
    simp [getOrCreateKeystore, hc, hex]
  · intro hnone c fs1 h
    simp only [getOrCreateKeystore, hnone, createAndPersistKeystore,
      generateKeystore, if_pos, Except.ok.injEq, Prod.mk.injEq] at h
    obtain ⟨hc, _⟩ := h
    subst hc
    exact ⟨rfl, rfl⟩
  · intro c fs1 h
    unfold getOrCreateKeystore at h
    split at h
    · rename_i config hc
      by_cases hex : fs.fileExists config.keystorePath = true
      · rw [if_pos hex] at h
        simp only [Except.ok.injEq, Prod.mk.injEq] at h
        obtain ⟨h1, h2⟩ := h
        subst h1; subst h2
        simp [getOrCreateKeystore, hc, hex]
      · rw [if_neg hex] at h
        simp only [createAndPersistKeystore, generateKeystore, if_true,
          Except.ok.injEq, Prod.mk.injEq] at h
        obtain ⟨h1, h2⟩ := h
        subst h1; subst h2
        simp [getOrCreateKeystore, defaultKeystoreConfig]
    · rename_i hc
      simp only [createAndPersistKeystore, generateKeystore, if_true,
        Except.ok.injEq, Prod.mk.injEq] at h
      obtain ⟨h1, h2⟩ := h
      subst h1; subst h2
      simp [getOrCreateKeystore, defaultKeystoreConfig]

/-- Empty file system: no configs, no files. -/
def ksFs0 : KsFs := ⟨fun _ => none, fun _ => false⟩

/-- The config the first call persists for project `proj1`. -/
def ksCfg1 : KeystoreConfig := defaultKeystoreConfig "proj1" "pw1" "pw2"

/-- The file-system state after the first call for project `proj1`. -/
def ksFs1 : KsFs :=
  match getOrCreateKeystore ksFs0 "proj1" "pw1" "pw2" true with
  | .ok (_, fs) => fs
  | .error _ => ksFs0

/-- Witness for C3_keystore_stable: a second call after a successful
first call returns the identical config and state. -/
theorem C3_keystore_stable_witness :
    getOrCreateKeystore ksFs1 "proj1" "pw3" "pw4" true = .ok (ksCfg1, ksFs1) :=
  (C3_keystore_stable ksFs0 "proj1" "pw1" "pw2" "pw3" "pw4").2.2 ksCfg1 ksFs1 rfl

/-! Debian build processor (src/debian-server/build-processor.ts): the
`builds` map, the FIFO `buildQueue` array, and the mutations performed by
`submitBuild`, `processQueue`/`processBuild`, the framework pipelines,
`cancelBuild` and `cleanupOldBuilds`.  Each `await` point of the async
code lets other operations interleave, so the system is modelled as a
small-step machine: one operation per source mutation block.  Wall-clock
time (`new Date()`) is an explicit `clock`; each addLog timestamps its
entry with the current clock. -/

/-- The status union of the `Build` interface. -/
inductive BuildStatus where
  | pending | queued | building | success | failed
deriving DecidableEq, Repr

/-- Log levels of `BuildLogEntry`. -/
inductive LogLevel where
  | info | warn | error | success
deriving DecidableEq, Repr

/-- One entry of a build's log (`BuildLogEntry`), with the ISO timestamp
string abstracted to the clock value it renders. -/
structure BuildLogEntry where
  timestamp : Nat
  level : LogLevel
  message : String
deriving DecidableEq, Repr

/-- One record of the `builds` map (interface `Build`). -/
structure Build where
  buildId : String
  projectId : String
  projectName : String
  framework : String
  status : BuildStatus
  logs : List BuildLogEntry
  apkPath : Option String
  apkUrl : Option String
  errorMessage : Option String
  progress : Option Nat
  createdAt : Nat
  startedAt : Option Nat
  completedAt : Option Nat
deriving DecidableEq, Repr

/-- Whole-module state of the build processor: the `builds` map, the
`buildQueue` array of ids, and the wall clock. -/
structure DebianState where
  builds : String → Option Build
  queue : List String
  clock : Nat

/-- Point update of the builds map. -/
def setBuild (f : String → Option Build) (id : String) (b : Build) :
    String → Option Build :=
  fun q => if q = id then some b else f q

/-- One timestamped log entry, as `addLog` builds it. -/
def logEntry (c : Nat) (lv : LogLevel) (msg : String) : BuildLogEntry :=
  ⟨c, lv, msg⟩

/-- The record `submitBuild` creates: status `queued`, one initial log
entry, creation timestamp, everything else unset. -/
def submittedRecord (buildId projectId projectName framework : String)
    (c : Nat) : Build :=
  { buildId := buildId, projectId := projectId,
    projectName := projectName, framework := framework,
    status := .queued,
    logs := [logEntry c .info "Build queued on Debian server"],
    apkPath := none, apkUrl := none, errorMessage := none,
    progress := none, createdAt := c,
    startedAt := none, completedAt := none }

/-- The mutation `processBuild` performs on entry: status `building`,
`startedAt`, and the "Build started" log line. -/
def startedRecord (b : Build) (c : Nat) : Build :=
  { b with status := .building, startedAt := some c,
           logs := b.logs ++ [logEntry c .info "Build started"] }

/-- One progress/log update of a framework pipeline or of `runCommand`
(addLog plus an optional `build.progress` assignment). -/
def progressRecord (b : Build) (c : Nat) (lv : LogLevel) (msg : String)
    (pr : Option Nat) : Build :=
  { b with
    progress := match pr with
      | some p => some p
      | none => b.progress,
    logs := b.logs ++ [logEntry c lv msg] }

/-- The artifact hand-off at the end of a framework pipeline: set
`apkPath`/`apkUrl` and log the success line. -/
def artifactRecord (b : Build) (c : Nat) (ap au : String) : Build :=
  { b with apkPath := some ap, apkUrl := some au,
           logs := b.logs ++
             [logEntry c .success "APK generated and signed successfully"] }

/-- The success tail of `processBuild`: status `success`, `completedAt`,
progress 100 and the final log line. -/
def successRecord (b : Build) (c : Nat) : Build :=
  { b with status := .success, completedAt := some c, progress := some 100,
           logs := b.logs ++
             [logEntry c .success "Build completed successfully!"] }

/-- The catch tail of `processBuild`: status `failed`, `completedAt`,
the error message and the failure log line. -/
def failureRecord (b : Build) (c : Nat) (msg : String) : Build :=
  { b with status := .failed, completedAt := some c,
           errorMessage := some msg,
           logs := b.logs ++ [logEntry c .error ("Build failed: " ++ msg)] }

/-- The mutation `cancelBuild` performs on an admitted cancellation. -/
def cancelledRecord (b : Build) (c : Nat) : Build :=
  { b with status := .failed, completedAt := some c,
           errorMessage := some "Build cancelled by user",
           logs := b.logs ++ [logEntry c .error "Build cancelled"] }

/-- `addLog(buildId, level, message)`: append one timestamped entry to
the build's log, a no-op for an unknown id. -/
def addLogD (s : DebianState) (buildId : String) (level : LogLevel)
    (message : String) : DebianState :=
  match s.builds buildId with
  | none => s
  | some b =>
      let b1 : Build := { b with logs := b.logs ++ [logEntry s.clock level message] }
      { s with builds := setBuild s.builds buildId b1 }

/-- `submitBuild`: create the record and push the id onto the queue.
(`buildId` stands for the fresh `randomUUID()`.) -/
def submitBuildD (s : DebianState)
    (buildId projectId projectName framework : String) : DebianState :=
  { s with
    builds := setBuild s.builds buildId
      (submittedRecord buildId projectId projectName framework s.clock),
    queue := s.queue ++ [buildId] }

/-- `processQueue` shifting the queue head plus the start of
`processBuild`.  (The addLog call is inlined: it re-reads the same
record it just mutated.) -/
def beginBuildD (s : DebianState) : DebianState :=
  match s.queue with
  | [] => s
  | buildId :: rest =>
      match s.builds buildId with
      | none => { s with queue := rest }
      | some b =>
          { s with queue := rest,
                   builds := setBuild s.builds buildId (startedRecord b s.clock) }

/-- One progress/log update of a running pipeline. -/
def pipelineLogD (s : DebianState) (buildId : String) (level : LogLevel)
    (message : String) (progress : Option Nat) : DebianState :=
  match s.builds buildId with
  | none => s
  | some b =>
      { s with builds :=
          setBuild s.builds buildId (progressRecord b s.clock level message progress) }

/-- The artifact hand-off at the end of a framework pipeline. -/
def setArtifactD (s : DebianState) (buildId apkPath apkUrl : String) :
    DebianState :=
  match s.builds buildId with
  | none => s
  | some b =>
      { s with builds :=
          setBuild s.builds buildId (artifactRecord b s.clock apkPath apkUrl) }

/-- The success tail of `processBuild`. -/
def finishSuccessD (s : DebianState) (buildId : String) : DebianState :=
  match s.builds buildId with
  | none => s
  | some b =>
      { s with builds := setBuild s.builds buildId (successRecord b s.clock) }

/-- The catch tail of `processBuild`. -/
def finishFailureD (s : DebianState) (buildId message : String) :
    DebianState :=
  match s.builds buildId with
  | none => s
  | some b =>
      { s with builds :=
          setBuild s.builds buildId (failureRecord b s.clock message) }

/-- `cancelBuild(buildId)`: reject unknown ids and terminal builds with
no state change; otherwise splice the id out of the queue and mark the
record failed/cancelled. -/
def cancelBuildD (s : DebianState) (buildId : String) :
    Bool × DebianState :=
  match s.builds buildId with
  | none => (false, s)
  | some b =>
      if b.status = .success ∨ b.status = .failed then (false, s)
      else
        (true, { s with queue := s.queue.erase buildId,
                        builds := setBuild s.builds buildId
                          (cancelledRecord b s.clock) })

/-- One record's visit of the `cleanupOldBuilds` sweep: evict the whole
record when it is terminal and older than 24 h. -/
def cleanupOneD (s : DebianState) (buildId : String) : DebianState :=
  match s.builds buildId with
  | none => s
  | some b =>
      if 86400000 < s.clock - b.createdAt ∧
          (b.status = .success ∨ b.status = .failed) then
        { s with builds := fun q => if q = buildId then none else s.builds q }
      else s

/-- Wall-clock progress between operations. -/
def advanceD (s : DebianState) (n : Nat) : DebianState :=
  { s with clock := s.clock + n }

/-- One interleavable operation of the build processor. -/
inductive DOp where
  | submit (buildId projectId projectName framework : String)
  | beginQ
  | pipelineLog (buildId : String) (level : LogLevel) (message : String)
      (progress : Option Nat)
  | setArtifact (buildId apkPath apkUrl : String)
  | finishSuccess (buildId : String)
  | finishFailure (buildId message : String)
  | cancel (buildId : String)
  | cleanup (buildId : String)
  | advance (n : Nat)

/-- Realism side conditions of a trace: `submit` only happens with a
fresh `randomUUID()`, and the pipeline/completion operations of
`processBuild` only happen for a build whose id `processQueue` has
already shifted off the queue. -/
def DOpGuard (s : DebianState) : DOp → Prop
  | .submit b _ _ _ => s.builds b = none
  | .pipelineLog b _ _ _ => b ∉ s.queue
  | .setArtifact b _ _ => b ∉ s.queue
  | .finishSuccess b => b ∉ s.queue
  | .finishFailure b _ => b ∉ s.queue
  | _ => True

def applyDOp (s : DebianState) : DOp → DebianState
  | .submit b p pn fw => submitBuildD s b p pn fw
  | .beginQ => beginBuildD s
  | .pipelineLog b lv msg pr => pipelineLogD s b lv msg pr
  | .setArtifact b ap au => setArtifactD s b ap au
  | .finishSuccess b => finishSuccessD s b
  | .finishFailure b msg => finishFailureD s b msg
  | .cancel b => (cancelBuildD s b).2
  | .cleanup b => cleanupOneD s b
  | .advance n => advanceD s n

/-- Module initial state: empty builds map, empty queue. -/
def dInit : DebianState := ⟨fun _ => none, [], 0⟩

/-- Reachability of a build-processor state along guarded operations. -/
inductive DReach : DebianState → Prop where
  | init : DReach dInit
  | step {s : DebianState} (op : DOp) : DReach s → DOpGuard s op →
      DReach (applyDOp s op)

theorem logs_append_pairwise {l : List BuildLogEntry} {c : Nat}
    (e : BuildLogEntry)
    (hp : l.Pairwise (fun a b => a.timestamp ≤ b.timestamp))
    (hc : ∀ x ∈ l, x.timestamp ≤ c) (he : e.timestamp = c) :
    (l ++ [e]).Pairwise (fun a b => a.timestamp ≤ b.timestamp)
    ∧ ∀ x ∈ l ++ [e], x.timestamp ≤ c := by
  constructor
  · rw [List.pairwise_append]
    refine ⟨hp, List.pairwise_singleton _ _, ?_⟩
    intro a ha b hb
    rw [List.mem_singleton] at hb
    subst hb
    rw [he]
    exact hc a ha
  · intro x hx
    rcases List.mem_append.mp hx with hx | hx
    · exact hc x hx
    · rw [List.mem_singleton] at hx
      subst hx
      omega

/-- Record-level invariant of the build processor: no record is
`pending`, and each record's log timestamps are non-decreasing and
bounded by the clock. -/
def DInv (s : DebianState) : Prop :=
  ∀ id b, s.builds id = some b →
    b.status ≠ BuildStatus.pending
    ∧ b.logs.Pairwise (fun e1 e2 => e1.timestamp ≤ e2.timestamp)
    ∧ ∀ e ∈ b.logs, e.timestamp ≤ s.clock

theorem dInv_update (s : DebianState) (h : DInv s) (bid : String)
    (bOld bNew : Build) (q2 : List String)
    (hbid : s.builds bid = some bOld)
    (hst : bNew.status ≠ BuildStatus.pending)
    (hlg : bNew.logs = bOld.logs ∨
      ∃ lv msg, bNew.logs = bOld.logs ++ [logEntry s.clock lv msg]) :
    DInv ⟨setBuild s.builds bid bNew, q2, s.clock⟩ := by
  intro id b hb
  simp only [setBuild] at hb
  by_cases hid : id = bid
  · rw [if_pos hid, Option.some.injEq] at hb
    subst hb
    obtain ⟨h1, h2, h3⟩ := h bid bOld hbid
    refine ⟨hst, ?_⟩
    rcases hlg with he | ⟨lv, msg, he⟩
    · rw [he]
      exact ⟨h2, h3⟩
    · rw [he]
      exact logs_append_pairwise _ h2 h3 rfl
  · rw [if_neg hid] at hb
    exact h id b hb

theorem dInv_step (s : DebianState) (op : DOp) (h : DInv s) :
    DInv (applyDOp s op) := by
  cases op with
  | submit bid pid pn fw =>
      intro id b hb
      simp only [applyDOp, submitBuildD, setBuild] at hb
      by_cases hid : id = bid
      · rw [if_pos hid, Option.some.injEq] at hb
        subst hb
        refine ⟨by simp [submittedRecord], by simp [submittedRecord, logEntry], ?_⟩
        intro e he
        simp [submittedRecord, logEntry] at he
        simp [he, applyDOp, submitBuildD, logEntry]
      · rw [if_neg hid] at hb
        exact h id b hb
  | beginQ =>
      rcases hq : s.queue with _ | ⟨bid, rest⟩
      · have heq : applyDOp s .beginQ = s := by
          simp [applyDOp, beginBuildD, hq]
        rw [heq]
        exact h
      · cases hbid : s.builds bid with
        | none =>
            have heq : applyDOp s .beginQ = { s with queue := rest } := by
              simp [applyDOp, beginBuildD, hq, hbid]
            rw [heq]
            exact fun id b hb => h id b hb
        | some bOld =>
            have heq : applyDOp s .beginQ =
                ⟨setBuild s.builds bid (startedRecord bOld s.clock), rest, s.clock⟩ := by
              simp [applyDOp, beginBuildD, hq, hbid]
            rw [heq]
            exact dInv_update s h bid bOld _ rest hbid
              (by simp [startedRecord])
              (Or.inr ⟨.info, "Build started", rfl⟩)
  | pipelineLog bid lv msg pr =>
      cases hbid : s.builds bid with
      | none =>
          have heq : applyDOp s (.pipelineLog bid lv msg pr) = s := by
            simp [applyDOp, pipelineLogD, hbid]
          rw [heq]
          exact h
      | some bOld =>
          have heq : applyDOp s (.pipelineLog bid lv msg pr) =
              ⟨setBuild s.builds bid (progressRecord bOld s.clock lv msg pr),
                s.queue, s.clock⟩ := by
            simp [applyDOp, pipelineLogD, hbid]
          rw [heq]
          exact dInv_update s h bid bOld _ s.queue hbid
            (by simpa [progressRecord] using (h bid bOld hbid).1)
            (Or.inr ⟨lv, msg, rfl⟩)
  | setArtifact bid ap au =>
      cases hbid : s.builds bid with
      | none =>
          have heq : applyDOp s (.setArtifact bid ap au) = s := by
            simp [applyDOp, setArtifactD, hbid]
          rw [heq]
          exact h
      | some bOld =>
          have heq : applyDOp s (.setArtifact bid ap au) =
              ⟨setBuild s.builds bid (artifactRecord bOld s.clock ap au),
                s.queue, s.clock⟩ := by
            simp [applyDOp, setArtifactD, hbid]
          rw [heq]
          exact dInv_update s h bid bOld _ s.queue hbid
            (by simpa [artifactRecord] using (h bid bOld hbid).1)
            (Or.inr ⟨.success, "APK generated and signed successfully", rfl⟩)
  | finishSuccess bid =>
      cases hbid : s.builds bid with
      | none =>
          have heq : applyDOp s (.finishSuccess bid) = s := by
            simp [applyDOp, finishSuccessD, hbid]
          rw [heq]
          exact h
      | some bOld =>
          have heq : applyDOp s (.finishSuccess bid) =
              ⟨setBuild s.builds bid (successRecord bOld s.clock),
                s.queue, s.clock⟩ := by
            simp [applyDOp, finishSuccessD, hbid]
          rw [heq]
          exact dInv_update s h bid bOld _ s.queue hbid
            (by simp [successRecord])
            (Or.inr ⟨.success, "Build completed successfully!", rfl⟩)
  | finishFailure bid msg =>
      cases hbid : s.builds bid with
      | none =>
          have heq : applyDOp s (.finishFailure bid msg) = s := by
            simp [applyDOp, finishFailureD, hbid]
          rw [heq]
          exact h
      | some bOld =>
          have heq : applyDOp s (.finishFailure bid msg) =
              ⟨setBuild s.builds bid (failureRecord bOld s.clock msg),
                s.queue, s.clock⟩ := by
            simp [applyDOp, finishFailureD, hbid]
          rw [heq]
          exact dInv_update s h bid bOld _ s.queue hbid
            (by simp [failureRecord])
            (Or.inr ⟨.error, "Build failed: " ++ msg, rfl⟩)
  | cancel bid =>
      cases hbid : s.builds bid with
      | none =>
          have heq : applyDOp s (.cancel bid) = s := by
            simp [applyDOp, cancelBuildD, hbid]
          rw [heq]
          exact h
      | some bOld =>
          by_cases hterm : bOld.status = .success ∨ bOld.status = .failed
          · have heq : applyDOp s (.cancel bid) = s := by
              simp [applyDOp, cancelBuildD, hbid, hterm]
            rw [heq]
            exact h
          · have heq : applyDOp s (.cancel bid) =
                ⟨setBuild s.builds bid (cancelledRecord bOld s.clock),
                  s.queue.erase bid, s.clock⟩ := by
              simp [applyDOp, cancelBuildD, hbid, hterm]
            rw [heq]
            exact dInv_update s h bid bOld _ (s.queue.erase bid) hbid
              (by simp [cancelledRecord])
              (Or.inr ⟨.error, "Build cancelled", rfl⟩)
  | cleanup bid =>
      cases hbid : s.builds bid with
      | none =>
          have heq : applyDOp s (.cleanup bid) = s := by
            simp [applyDOp, cleanupOneD, hbid]
          rw [heq]
          exact h
      | some bOld =>
          by_cases hcond : 86400000 < s.clock - bOld.createdAt ∧
              (bOld.status = .success ∨ bOld.status = .failed)
          · have heq : applyDOp s (.cleanup bid) =
                ⟨fun q => if q = bid then none else s.builds q,
                  s.queue, s.clock⟩ := by
              simp [applyDOp, cleanupOneD, hbid, hcond]
            rw [heq]
            intro id b hb
            by_cases hid : id = bid
            · simp [hid] at hb
            · have hb2 : s.builds id = some b := by simpa [hid] using hb
              exact h id b hb2
          · have heq : applyDOp s (.cleanup bid) = s := by
              simp [applyDOp, cleanupOneD, hbid, hcond]
            rw [heq]
            exact h
  | advance n =>
      intro id b hb
      simp only [applyDOp, advanceD] at hb
      obtain ⟨h1, h2, h3⟩ := h id b hb
      refine ⟨h1, h2, ?_⟩
      intro e he
      have := h3 e he
      simp only [applyDOp, advanceD]
      omega

theorem dInv_reach (s : DebianState) (h : DReach s) : DInv s := by
  induction h with
  | init =>
      intro id b hb
      simp [dInit] at hb
  | step op hr hg ih => exact dInv_step _ op ih

theorem setBuild_logs_mono (s : DebianState) (bid : String)
    (bOld bNew : Build) (q2 : List String) (c2 : Nat)
    (hbid : s.builds bid = some bOld)
    (hpre : bOld.logs <+: bNew.logs)
    (id : String) (b b2 : Build) (hb : s.builds id = some b)
    (hb2 : (⟨setBuild s.builds bid bNew, q2, c2⟩ : DebianState).builds id =
      some b2) :
    b.logs <+: b2.logs := by
  have hb3 : (if id = bid then some bNew else s.builds id) = some b2 := hb2
  by_cases hid : id = bid
  · rw [if_pos hid] at hb3
    injection hb3 with h1
    subst h1
    rw [hid] at hb
    rw [hb] at hbid
    injection hbid with h2
    rw [h2]
    exact hpre
  · rw [if_neg hid] at hb3
    rw [hb] at hb3
    injection hb3 with h1
    rw [h1]

theorem applyDOp_logs_mono (s : DebianState) (op : DOp)
    (hg : DOpGuard s op) (id : String) (b b2 : Build)
    (hb : s.builds id = some b)
    (hb2 : (applyDOp s op).builds id = some b2) :
    b.logs <+: b2.logs := by
  cases op with
  | submit bid pid pn fw =>
      simp only [applyDOp, submitBuildD, setBuild] at hb2
      by_cases hid : id = bid
      · have hg2 : s.builds bid = none := hg
        rw [hid] at hb
        rw [hb] at hg2
        cases hg2
      · rw [if_neg hid, hb] at hb2
        injection hb2 with h1
        rw [h1]
  | beginQ =>
      rcases hq : s.queue with _ | ⟨bid, rest⟩
      · have heq : applyDOp s .beginQ = s := by
          simp [applyDOp, beginBuildD, hq]
        rw [heq, hb] at hb2
        injection hb2 with h1
        rw [h1]
      · cases hbid : s.builds bid with
        | none =>
            have heq : applyDOp s .beginQ = { s with queue := rest } := by
              simp [applyDOp, beginBuildD, hq, hbid]
            rw [heq] at hb2
            have hb3 : s.builds id = some b2 := hb2
            rw [hb] at hb3
            injection hb3 with h1
            rw [h1]
        | some bOld =>
            have heq : applyDOp s .beginQ =
                ⟨setBuild s.builds bid (startedRecord bOld s.clock), rest,
                  s.clock⟩ := by
              simp [applyDOp, beginBuildD, hq, hbid]
            rw [heq] at hb2
            exact setBuild_logs_mono s bid bOld _ rest s.clock hbid
              (by simp [startedRecord, List.prefix_append]) id b b2 hb hb2
  | pipelineLog bid lv msg pr =>
      cases hbid : s.builds bid with
      | none =>
          have heq : applyDOp s (.pipelineLog bid lv msg pr) = s := by
            simp [applyDOp, pipelineLogD, hbid]
          rw [heq, hb] at hb2
          injection hb2 with h1
          rw [h1]
      | some bOld =>
          have heq : applyDOp s (.pipelineLog bid lv msg pr) =
              ⟨setBuild s.builds bid (progressRecord bOld s.clock lv msg pr),
                s.queue, s.clock⟩ := by
            simp [applyDOp, pipelineLogD, hbid]
          rw [heq] at hb2
          exact setBuild_logs_mono s bid bOld _ s.queue s.clock hbid
            (by simp [progressRecord, List.prefix_append]) id b b2 hb hb2
  | setArtifact bid ap au =>
      cases hbid : s.builds bid with
      | none =>
          have heq : applyDOp s (.setArtifact bid ap au) = s := by
            simp [applyDOp, setArtifactD, hbid]
          rw [heq, hb] at hb2
          injection hb2 with h1
          rw [h1]
      | some bOld =>
          have heq : applyDOp s (.setArtifact bid ap au) =
              ⟨setBuild s.builds bid (artifactRecord bOld s.clock ap au),
                s.queue, s.clock⟩ := by
            simp [applyDOp, setArtifactD, hbid]
          rw [heq] at hb2
          exact setBuild_logs_mono s bid bOld _ s.queue s.clock hbid
            (by simp [artifactRecord, List.prefix_append]) id b b2 hb hb2
  | finishSuccess bid =>
      cases hbid : s.builds bid with
      | none =>
          have heq : applyDOp s (.finishSuccess bid) = s := by
            simp [applyDOp, finishSuccessD, hbid]
          rw [heq, hb] at hb2
          injection hb2 with h1
          rw [h1]
      | some bOld =>
          have heq : applyDOp s (.finishSuccess bid) =
              ⟨setBuild s.builds bid (successRecord bOld s.clock),
                s.queue, s.clock⟩ := by
            simp [applyDOp, finishSuccessD, hbid]
          rw [heq] at hb2
          exact setBuild_logs_mono s bid bOld _ s.queue s.clock hbid
            (by simp [successRecord, List.prefix_append]) id b b2 hb hb2
  | finishFailure bid msg =>
      cases hbid : s.builds bid with
      | none =>
          have heq : applyDOp s (.finishFailure bid msg) = s := by
            simp [applyDOp, finishFailureD, hbid]
          rw [heq, hb] at hb2
          injection hb2 with h1
          rw [h1]
      | some bOld =>
          have heq : applyDOp s (.finishFailure bid msg) =
              ⟨setBuild s.builds bid (failureRecord bOld s.clock msg),
                s.queue, s.clock⟩ := by
            simp [applyDOp, finishFailureD, hbid]
          rw [heq] at hb2
          exact setBuild_logs_mono s bid bOld _ s.queue s.clock hbid
            (by simp [failureRecord, List.prefix_append]) id b b2 hb hb2
  | cancel bid =>
      cases hbid : s.builds bid with
      | none =>
          have heq : applyDOp s (.cancel bid) = s := by
            simp [applyDOp, cancelBuildD, hbid]
          rw [heq, hb] at hb2
          injection hb2 with h1
          rw [h1]
      | some bOld =>
          by_cases hterm : bOld.status = .success ∨ bOld.status = .failed
          · have heq : applyDOp s (.cancel bid) = s := by
              simp [applyDOp, cancelBuildD, hbid, hterm]
            rw [heq, hb] at hb2
            injection hb2 with h1
            rw [h1]
          · have heq : applyDOp s (.cancel bid) =
                ⟨setBuild s.builds bid (cancelledRecord bOld s.clock),
                  s.queue.erase bid, s.clock⟩ := by
              simp [applyDOp, cancelBuildD, hbid, hterm]
            rw [heq] at hb2
            exact setBuild_logs_mono s bid bOld _ (s.queue.erase bid) s.clock
              hbid (by simp [cancelledRecord, List.prefix_append]) id b b2 hb
              hb2
  | cleanup bid =>
      cases hbid : s.builds bid with
      | none =>
          have heq : applyDOp s (.cleanup bid) = s := by
            simp [applyDOp, cleanupOneD, hbid]
          rw [heq, hb] at hb2
          injection hb2 with h1
          rw [h1]
      | some bOld =>
          by_cases hcond : 86400000 < s.clock - bOld.createdAt ∧
              (bOld.status = .success ∨ bOld.status = .failed)
          · have heq : applyDOp s (.cleanup bid) =
                ⟨fun q => if q = bid then none else s.builds q,
                  s.queue, s.clock⟩ := by
              simp [applyDOp, cleanupOneD, hbid, hcond]
            rw [heq] at hb2
            have hb3 : (if id = bid then none else s.builds id) = some b2 :=
              hb2
            by_cases hid : id = bid
            · rw [if_pos hid] at hb3
              cases hb3
            · rw [if_neg hid, hb] at hb3
              injection hb3 with h1
              rw [h1]
          · have heq : applyDOp s (.cleanup bid) = s := by
              simp [applyDOp, cleanupOneD, hbid, hcond]
            rw [heq, hb] at hb2
            injection hb2 with h1
            rw [h1]
  | advance n =>
      have hb3 : s.builds id = some b2 := hb2
      rw [hb] at hb3
      injection hb3 with h1
      rw [h1]

/-- C10: every record created by submitBuild starts `queued`, and in
every reachable state of the build processor every record's status is
one of queued, building, success, failed — the declared `pending` status
is never assigned. -/
theorem C10_pending_unreachable (s : DebianState) (h : DReach s)
    (id : String) (b : Build) (hb : s.builds id = some b) :
    b.status ≠ BuildStatus.pending
    ∧ (b.status = .queued ∨ b.status = .building ∨ b.status = .success ∨
        b.status = .failed)
    ∧ ∀ bid pid pn fw c, (submittedRecord bid pid pn fw c).status = .queued := by
  have h1 := (dInv_reach s h id b hb).1
  refine ⟨h1, ?_, fun _ _ _ _ _ => rfl⟩
  cases hst : b.status <;> simp_all

/-- Fallback record for total lookups in witnesses. -/
def junkBuild : Build :=
  ⟨"", "", "", "", .pending, [], none, none, none, none, 0, none, none⟩

/-- State after submitting build `b1`. -/
def dW1 : DebianState := applyDOp dInit (DOp.submit "b1" "p1" "n1" "flutter")

/-- The record of `b1` after submission. -/
def dWB1 : Build :=
  match dW1.builds "b1" with
  | some b => b
  | none => junkBuild

/-- Witness for C10_pending_unreachable on the reachable state after one
submission. -/
theorem C10_pending_unreachable_witness :
    dWB1.status ≠ BuildStatus.pending :=
  (C10_pending_unreachable dW1
    (DReach.step (DOp.submit "b1" "p1" "n1" "flutter") DReach.init rfl)
    "b1" dWB1 rfl).1

/-- C9 (amended, debian side): on the Debian build processor every
guarded operation only appends to a surviving record's log (the old log
is a prefix of the new one), and in every reachable state each record's
log timestamps are non-decreasing.  (The web-server record store does
NOT satisfy append-only: see the C9 counterexample.) -/
theorem C9_logs_append_only_amended (s : DebianState) (op : DOp)
    (hg : DOpGuard s op) (hreach : DReach s) (id : String) (b b2 : Build)
    (hb : s.builds id = some b)
    (hb2 : (applyDOp s op).builds id = some b2) :
    b.logs <+: b2.logs
    ∧ b.logs.Pairwise (fun e1 e2 => e1.timestamp ≤ e2.timestamp)
    ∧ b2.logs.Pairwise (fun e1 e2 => e1.timestamp ≤ e2.timestamp) := by
  refine ⟨applyDOp_logs_mono s op hg id b b2 hb hb2,
    (dInv_reach s hreach id b hb).2.1, ?_⟩
  exact (dInv_reach _ (DReach.step op hreach hg) id b2 hb2).2.1

/-- State after `b1` is shifted off the queue and started. -/
def dW2 : DebianState := applyDOp dW1 DOp.beginQ

/-- The record of `b1` after it started. -/
def dWB2 : Build :=
  match dW2.builds "b1" with
  | some b => b
  | none => junkBuild

/-- Witness for C9_logs_append_only_amended at the concrete begin step. -/
theorem C9_logs_append_only_amended_witness : dWB1.logs <+: dWB2.logs :=
  (C9_logs_append_only_amended dW1 DOp.beginQ trivial
    (DReach.step (DOp.submit "b1" "p1" "n1" "flutter") DReach.init rfl)
    "b1" dWB1 dWB2 rfl rfl).1

/-- Concrete interleaving for C5: submit, start, cancel while building,
then the still-running pipeline finishes. -/
def dT1 : DebianState := applyDOp dInit (DOp.submit "bb" "pp" "nn" "flutter")

def dT2 : DebianState := applyDOp dT1 (DOp.advance 1)

def dT3 : DebianState := applyDOp dT2 DOp.beginQ

def dT4 : DebianState := applyDOp dT3 (DOp.advance 1)

def dT5 : DebianState := applyDOp dT4 (DOp.cancel "bb")

def dT6 : DebianState := applyDOp dT5 (DOp.advance 1)

def dT7 : DebianState := applyDOp dT6 (DOp.finishSuccess "bb")

/-- Status of a record, for concrete evaluation. -/
def statusAtD (s : DebianState) (id : String) : Option BuildStatus :=
  (s.builds id).map Build.status

/-- Completion timestamp of a record, for concrete evaluation. -/
def completedAtD (s : DebianState) (id : String) : Option (Option Nat) :=
  (s.builds id).map Build.completedAt

/-- C5 (counterexample): along a real interleaving — cancel while
`building`, then the still-running processBuild completes — the record is
terminal (`failed`, completedAt = 2) and is afterwards overwritten to
`success` with a new completedAt, so a terminal record is mutated by a
later build-processor operation. -/
theorem C5_counterexample :
    DReach dT7
    ∧ statusAtD dT5 "bb" = some BuildStatus.failed
    ∧ statusAtD dT7 "bb" = some BuildStatus.success
    ∧ completedAtD dT5 "bb" = some (some 2)
    ∧ completedAtD dT7 "bb" = some (some 3) := by
  refine ⟨?_, by decide, by decide, by decide, by decide⟩
  exact DReach.step (DOp.finishSuccess "bb")
    (DReach.step (DOp.advance 1)
      (DReach.step (DOp.cancel "bb")
        (DReach.step (DOp.advance 1)
          (DReach.step DOp.beginQ
            (DReach.step (DOp.advance 1)
              (DReach.step (DOp.submit "bb" "pp" "nn" "flutter")
                DReach.init rfl)
              trivial)
            trivial)
          trivial)
        trivial)
      trivial)
    (show "bb" ∉ dT6.queue by decide)

/-- C5 (amended): for a record already in a terminal state, cancelBuild
fails and leaves the whole state unchanged, and the retention sweep
either evicts the record wholly or leaves the state unchanged (and never
touches other records); only the completion/progress path of a
processBuild that is still running can overwrite a terminal record. -/
theorem C5_terminal_amended (s : DebianState) (id id2 : String) (b : Build)
    (hb : s.builds id = some b)
    (hterm : b.status = BuildStatus.success ∨ b.status = BuildStatus.failed) :
    cancelBuildD s id = (false, s)
    ∧ ((cleanupOneD s id).builds id = none ∨ cleanupOneD s id = s)
    ∧ (id2 ≠ id → (cleanupOneD s id2).builds id = s.builds id) := by
  refine ⟨?_, ?_, ?_⟩
  · simp [cancelBuildD, hb, hterm]
  · by_cases hcond : 86400000 < s.clock - b.createdAt ∧
        (b.status = BuildStatus.success ∨ b.status = BuildStatus.failed)
    · left
      simp [cleanupOneD, hb, hcond]
    · right
      simp [cleanupOneD, hb, hcond]
  · intro hne
    cases hb3 : s.builds id2 with
    | none => simp [cleanupOneD, hb3]
    | some b3 =>
        by_cases hcond : 86400000 < s.clock - b3.createdAt ∧
            (b3.status = BuildStatus.success ∨ b3.status = BuildStatus.failed)
        · simp [cleanupOneD, hb3, hcond, Ne.symm hne]
        · simp [cleanupOneD, hb3, hcond]

/-- The terminal (cancelled) record of `bb` in state dT5. -/
def dTB5 : Build :=
  match dT5.builds "bb" with
  | some b => b
  | none => junkBuild

/-- Witness for C5_terminal_amended: cancelling the already-cancelled
build is rejected with no state change. -/
theorem C5_terminal_amended_witness :
    cancelBuildD dT5 "bb" = (false, dT5) :=
  (C5_terminal_amended dT5 "bb" "other" dTB5 rfl (Or.inr rfl)).1

/-! Web server (route handlers in src/server/routes.ts over the
MemStorage build-job store of src/unnamed/part_004 and the shared
`buildQueue` instance): `POST /api/projects/:id/build` (createBuildJob,
queue add, and the `processBuild` retry closure) and
`POST /api/builds/:id/cancel`.  MemStorage.updateBuildJob merges the
given partial record over the stored one, so an update that carries a
`logs` array REPLACES the stored logs. -/

/-- One build-job row of the web storage (shared/schema BuildJob),
restricted to the fields the modelled routes read or write. -/
structure WebBuild where
  id : String
  projectId : String
  status : BuildStatus
  logs : List BuildLogEntry
  errorMessage : Option String
  apkUrl : Option String
  createdAt : Nat
  completedAt : Option Nat
deriving DecidableEq, Repr

/-- Web-server state: the storage build jobs, the project status rows,
the shared BuildQueue instance and the wall clock. -/
structure WebState where
  buildJobs : String → Option WebBuild
  projects : String → Option String
  bq : BuildQueue
  clock : Nat

/-- Point update of the build-jobs store. -/
def setJob (f : String → Option WebBuild) (id : String) (b : WebBuild) :
    String → Option WebBuild :=
  fun q => if q = id then some b else f q

/-- `storage.updateProject(id, { status })`: merge the status into an
existing row, no-op for an unknown project. -/
def setProjStatus (f : String → Option String) (id : String) (st : String) :
    String → Option String :=
  fun q => if q = id then (f q).map (fun _ => st) else f q

/-- `storage.updateBuildJob(id, updates)`: merge `f` over the stored
record, `none` (no-op) for an unknown id. -/
def updateBuildJobW (s : WebState) (id : String) (f : WebBuild → WebBuild) :
    WebState :=
  match s.buildJobs id with
  | none => s
  | some b => { s with buildJobs := setJob s.buildJobs id (f b) }

/-- The record createBuildJob stores for a new submission: status
`queued` and a single "Build queued" log entry. -/
def newWebJob (buildId projectId : String) (c : Nat) : WebBuild :=
  { id := buildId, projectId := projectId, status := .queued,
    logs := [logEntry c .info "Build queued"],
    errorMessage := none, apkUrl := none, createdAt := c,
    completedAt := none }

/-- The queue-position log line of the retry loop; `pos` is the value of
`buildQueue.getPosition` (−1 when the build is no longer waiting). -/
def queuePosMsg (pos : Int) : String :=
  "Build queued (position: " ++ toString (pos + 1) ++ ")"

/-- The retry-loop update: `updateBuildJob(id, { logs: [positionLine] })`
— the stored logs array is replaced by the single position line. -/
def posLogRecord (b : WebBuild) (c : Nat) (pos : Int) : WebBuild :=
  { b with logs := [logEntry c .info (queuePosMsg pos)] }

/-- The update after startBuild succeeds:
`updateBuildJob(id, { status: "queued", logs: [submittingLine] })`. -/
def submittingRecord (b : WebBuild) (c : Nat) : WebBuild :=
  { b with status := .queued,
           logs := [logEntry c .info "Submitting build to Debian server..."] }

/-- The cancel-route update: status failed, completedAt, the
cancellation error message, and the fetched record's logs plus one
appended warn entry. -/
def cancelledWebRecord (bb : WebBuild) (origLogs : List BuildLogEntry)
    (c : Nat) : WebBuild :=
  { bb with status := .failed, completedAt := some c,
            errorMessage := some "Build cancelled by user",
            logs := origLogs ++ [logEntry c .warn "Build cancelled by user"] }

/-- `POST /api/projects/:id/build` up to the first `processBuild` call:
create the queued record and add it to the build queue. -/
def submitRouteW (s : WebState) (buildId projectId : String)
    (priority : Int) : WebState :=
  { s with buildJobs := setJob s.buildJobs buildId (newWebJob buildId projectId s.clock),
           bq := s.bq.add buildId projectId priority s.clock }

/-- Outcome of one iteration of the `processBuild` retry closure. -/
inductive TickOutcome where
  | retry | stopped | started
deriving DecidableEq, Repr

/-- One iteration of the `processBuild` closure (routes.ts 302-340): if
no slot is free, overwrite the record's logs with the current queue
position and schedule another try; otherwise call startBuild — on
failure just return, on success mark the project building and overwrite
the record with the submitting line.  There is no cancellation check. -/
def processTickW (s : WebState) (buildId projectId : String) :
    TickOutcome × WebState :=
  if !s.bq.canStartBuild then
    (.retry, updateBuildJobW s buildId
      (fun b => posLogRecord b s.clock (s.bq.getPosition buildId)))
  else if !(s.bq.startBuild buildId).1 then
    (.stopped, { s with bq := (s.bq.startBuild buildId).2 })
  else
    let s1 : WebState := { s with bq := (s.bq.startBuild buildId).2 }
    let s2 : WebState :=
      { s1 with projects := setProjStatus s1.projects projectId "building" }
    (.started, updateBuildJobW s2 buildId (fun b => submittingRecord b s.clock))

/-- `POST /api/builds/:id/cancel`: 404 on unknown id, 400 unless the
status is queued or building — both with no state change; otherwise
remove from the queue, overwrite the record as cancelled and mark the
project active. -/
def cancelRouteW (s : WebState) (buildId : String) : Bool × WebState :=
  match s.buildJobs buildId with
  | none => (false, s)
  | some b =>
      if b.status ≠ .queued ∧ b.status ≠ .building then (false, s)
      else
        let s1 : WebState := { s with bq := (s.bq.removeB buildId).2 }
        let s2 : WebState := updateBuildJobW s1 buildId
          (fun bb => cancelledWebRecord bb b.logs s.clock)
        (true, { s2 with projects := setProjStatus s2.projects b.projectId "active" })

/-- Wall-clock progress between web operations. -/
def advanceW (s : WebState) (n : Nat) : WebState :=
  { s with clock := s.clock + n }

/-- Whether some waiting item of the queue carries this build id. -/
def inQueueW (bq : BuildQueue) (id : String) : Bool :=
  bq.queue.any (fun item => item.buildId == id)

/-- Status of a stored web build job, for concrete evaluation. -/
def statusAtW (s : WebState) (id : String) : Option BuildStatus :=
  (s.buildJobs id).map WebBuild.status

/-- Log timestamps of a stored web build job, for concrete evaluation. -/
def logsTimesAtW (s : WebState) (id : String) : Option (List Nat) :=
  (s.buildJobs id).map (fun b => b.logs.map BuildLogEntry.timestamp)

theorem eraseIdx_findIdx_any_false {α : Type} (p : α → Bool) :
    ∀ (l : List α) (i : Nat), l.countP p ≤ 1 → l.findIdx? p = some i →
      (l.eraseIdx i).any p = false := by
  intro l
  induction l with
  | nil =>
      intro i _ hf
      simp at hf
  | cons x xs ih =>
      intro i hcount hf
      rw [List.findIdx?_cons] at hf
      by_cases hx : p x
      · rw [if_pos hx] at hf
        injection hf with h1
        subst h1
        rw [List.countP_cons, if_pos hx] at hcount
        have h0 : xs.countP p = 0 := by omega
        rw [List.eraseIdx_zero, List.tail_cons, List.any_eq_false]
        intro a ha
        have := List.countP_eq_zero.mp h0
        simpa using this a ha
      · rw [if_neg hx, List.findIdx?_start_succ] at hf
        cases hfx : xs.findIdx? p with
        | none =>
            rw [hfx] at hf
            simp at hf
        | some j =>
            rw [hfx] at hf
            simp at hf
            subst hf
            rw [List.eraseIdx_cons_succ, List.any_cons]
            have hxs : xs.countP p ≤ 1 := by
              rw [List.countP_cons] at hcount
              omega
            rw [ih j hxs hfx]
            simp [hx]

theorem removeB_inQueue_false (q : BuildQueue) (id : String)
    (huniq : q.queue.countP (fun item => item.buildId == id) ≤ 1) :
    inQueueW (q.removeB id).2 id = false := by
  simp only [inQueueW, BuildQueue.removeB]
  split
  · rename_i i hf
    exact eraseIdx_findIdx_any_false _ _ i huniq hf
  · rename_i hf
    rw [List.any_eq_false]
    intro a ha
    have h2 := List.findIdx?_eq_none_iff.mp hf
    simpa using h2 a ha

theorem startBuild_queue_sublist (q : BuildQueue) (id : String) :
    List.Sublist (q.startBuild id).2.queue q.queue := by
  unfold BuildQueue.startBuild
  split
  · exact List.Sublist.refl _
  · split
    · exact List.Sublist.refl _
    · simp only [BuildQueue.removeB]
      split
      · exact List.eraseIdx_sublist _ _
      · exact List.Sublist.refl _

theorem inQueueW_false_of_sublist {l1 l2 : List QueueItem} (id : String)
    (hsub : List.Sublist l1 l2)
    (h : l2.any (fun item => item.buildId == id) = false) :
    l1.any (fun item => item.buildId == id) = false := by
  rw [List.any_eq_false] at h ⊢
  intro x hx
  exact h x (hsub.subset hx)

theorem updateBuildJobW_bq (s : WebState) (id : String)
    (f : WebBuild → WebBuild) : (updateBuildJobW s id f).bq = s.bq := by
  unfold updateBuildJobW
  split <;> rfl

theorem startBuild_not_found (q : BuildQueue) (id : String)
    (h : inQueueW q id = false) :
    (q.startBuild id).1 = false ∧ (q.startBuild id).2 = q := by
  have hfind : q.queue.find? (fun item => item.buildId == id) = none := by
    rw [List.find?_eq_none]
    intro x hx
    simp only [inQueueW, List.any_eq_false] at h
    exact h x hx
  simp [BuildQueue.startBuild, hfind]

theorem updateBuildJobW_lookup (s : WebState) (id : String)
    (f : WebBuild → WebBuild) :
    (updateBuildJobW s id f).buildJobs id = (s.buildJobs id).map f := by
  unfold updateBuildJobW
  cases h : s.buildJobs id with
  | none => simp [h]
  | some b => simp [h, setJob]

/-- C8: the web cancel route succeeds exactly when the record exists
with status queued or building, and a rejected cancel (unknown id or
other status) leaves the whole state — records, queue, active count —
unchanged; likewise the Debian cancelBuild rejects unknown ids and
terminal builds with no state change, and (for the reachable,
non-pending statuses) succeeds exactly on queued or building. -/
theorem C8_cancel_admission (s : WebState) (buildId : String)
    (sd : DebianState) :
    ((cancelRouteW s buildId).1 = true ↔
      ∃ b, s.buildJobs buildId = some b ∧
        (b.status = BuildStatus.queued ∨ b.status = BuildStatus.building))
    ∧ ((cancelRouteW s buildId).1 = false → (cancelRouteW s buildId).2 = s)
    ∧ (sd.builds buildId = none → cancelBuildD sd buildId = (false, sd))
    ∧ (∀ bd, sd.builds buildId = some bd →
        (bd.status = BuildStatus.success ∨ bd.status = BuildStatus.failed) →
        cancelBuildD sd buildId = (false, sd))
    ∧ (∀ bd, sd.builds buildId = some bd → bd.status ≠ BuildStatus.pending →
        ((cancelBuildD sd buildId).1 = true ↔
          (bd.status = BuildStatus.queued ∨ bd.status = BuildStatus.building))) := by
  refine ⟨?_, ?_, ?_, ?_, ?_⟩
  · cases hb : s.buildJobs buildId with
    | none =>
        constructor
        · intro h
          have heq : cancelRouteW s buildId = (false, s) := by
            simp [cancelRouteW, hb]
          rw [heq] at h
          cases h
        · rintro ⟨b', hb2, _⟩
          cases hb2
    | some b =>
        by_cases hcond : b.status ≠ BuildStatus.queued ∧
            b.status ≠ BuildStatus.building
        · constructor
          · intro h
            have heq : cancelRouteW s buildId = (false, s) := by
              simp [cancelRouteW, hb, hcond]
            rw [heq] at h
            cases h
          · rintro ⟨b', hb2, hst⟩
            injection hb2 with h1
            subst h1
            rcases hcond with ⟨hq2, hbd2⟩
            rcases hst with h2 | h2
            · exact absurd h2 hq2
            · exact absurd h2 hbd2
        · constructor
          · intro _
            refine ⟨b, rfl, ?_⟩
            by_cases h1 : b.status = BuildStatus.queued
            · exact Or.inl h1
            · by_cases h2 : b.status = BuildStatus.building
              · exact Or.inr h2
              · exact absurd ⟨h1, h2⟩ hcond
          · intro _
            simp [cancelRouteW, hb, hcond]
  · intro h
    cases hb : s.buildJobs buildId with
    | none => simp [cancelRouteW, hb]
    | some b =>
        by_cases hcond : b.status ≠ BuildStatus.queued ∧
            b.status ≠ BuildStatus.building
        · simp [cancelRouteW, hb, hcond]
        · exfalso
          have htrue : (cancelRouteW s buildId).1 = true := by
            simp [cancelRouteW, hb, hcond]
          rw [htrue] at h
          cases h
  · intro h
    simp [cancelBuildD, h]
  · intro bd hbd hterm
    simp [cancelBuildD, hbd, hterm]
  · intro bd hbd hnp
    by_cases hterm : bd.status = BuildStatus.success ∨
        bd.status = BuildStatus.failed
    · have heq : cancelBuildD sd buildId = (false, sd) := by
        simp [cancelBuildD, hbd, hterm]
      rw [heq]
      constructor
      · intro h
        cases h
      · intro hst
        rcases hterm with h | h <;> rcases hst with h2 | h2 <;>
          rw [h] at h2 <;> cases h2
    · have htrue : (cancelBuildD sd buildId).1 = true := by
        simp [cancelBuildD, hbd, hterm]
      rw [htrue]
      constructor
      · intro _
        cases hst : bd.status <;> simp_all
      · intro _
        rfl

/-- Witness for C8_cancel_admission: cancelling an unknown build id on
the empty web state is rejected and changes nothing. -/
theorem C8_cancel_admission_witness :
    (cancelRouteW ⟨fun _ => none, fun _ => none, BuildQueue.mk0 1, 0⟩ "x").2 =
      ⟨fun _ => none, fun _ => none, BuildQueue.mk0 1, 0⟩ :=
  (C8_cancel_admission ⟨fun _ => none, fun _ => none, BuildQueue.mk0 1, 0⟩
    "x" dInit).2.1 rfl

/-- C6 (amended): while no slot is free, each tick of the processBuild
retry closure returns retry and rewrites the record's logs with the
current queue-position line — with no cancellation check, so this also
happens to an already-cancelled record; a build absent from the waiting
list (as after a cancel) can never reach the started outcome, ticks
never re-add it to the waiting list, and a successful cancel removes the
build from the waiting list. -/
theorem C6_retry_loop_amended (s : WebState)
    (buildId projectId id2 pid2 : String) :
    (s.bq.canStartBuild = false →
      (processTickW s buildId projectId).1 = TickOutcome.retry
      ∧ (processTickW s buildId projectId).2.buildJobs buildId =
          (s.buildJobs buildId).map
            (fun b => posLogRecord b s.clock (s.bq.getPosition buildId)))
    ∧ (inQueueW s.bq buildId = false →
        (processTickW s buildId projectId).1 ≠ TickOutcome.started)
    ∧ (inQueueW s.bq buildId = false →
        inQueueW (processTickW s id2 pid2).2.bq buildId = false)
    ∧ ((cancelRouteW s buildId).1 = true →
        s.bq.queue.countP (fun item => item.buildId == buildId) ≤ 1 →
        inQueueW (cancelRouteW s buildId).2.bq buildId = false) := by
  refine ⟨?_, ?_, ?_, ?_⟩
  · intro hcan
    constructor
    · simp [processTickW, hcan]
    · simp only [processTickW, hcan, Bool.not_false, if_true]
      exact updateBuildJobW_lookup s buildId _
  · intro hq
    obtain ⟨hfail, _⟩ := startBuild_not_found s.bq buildId hq
    by_cases hcan : s.bq.canStartBuild
    · simp [processTickW, hcan, hfail]
    · simp [processTickW, hcan]
  · intro hq
    by_cases hcan : s.bq.canStartBuild
    · by_cases hst : (s.bq.startBuild id2).1
      · have heq : (processTickW s id2 pid2).2.bq = (s.bq.startBuild id2).2 := by
          simp [processTickW, hcan, hst, updateBuildJobW_bq]
        rw [heq]
        exact inQueueW_false_of_sublist buildId
          (startBuild_queue_sublist s.bq id2) hq
      · have heq : (processTickW s id2 pid2).2.bq = (s.bq.startBuild id2).2 := by
          simp [processTickW, hcan, hst]
        rw [heq]
        exact inQueueW_false_of_sublist buildId
          (startBuild_queue_sublist s.bq id2) hq
    · have heq : (processTickW s id2 pid2).2.bq = s.bq := by
        simp [processTickW, hcan, updateBuildJobW_bq]
      rw [heq]
      exact hq
  · intro hsucc huniq
    cases hb : s.buildJobs buildId with
    | none =>
        exfalso
        simp [cancelRouteW, hb] at hsucc
    | some b =>
        by_cases hcond : b.status ≠ BuildStatus.queued ∧
            b.status ≠ BuildStatus.building
        · exfalso
          simp [cancelRouteW, hb, hcond] at hsucc
        · have heq : (cancelRouteW s buildId).2.bq =
              (s.bq.removeB buildId).2 := by
            simp [cancelRouteW, hb, hcond, updateBuildJobW_bq]
          rw [heq]
          exact removeB_inQueue_false s.bq buildId huniq

/-- Empty web state: no jobs, no projects, one concurrency slot. -/
def wInit : WebState := ⟨fun _ => none, fun _ => none, BuildQueue.mk0 1, 0⟩

/-- Build A submitted (occupying the only slot after its first tick). -/
def w1 : WebState := submitRouteW wInit "A" "pA" 0

/-- Build A started: the single slot is now busy. -/
def w2 : WebState := (processTickW w1 "A" "pA").2

/-- Build B submitted while the slot is busy. -/
def w3 : WebState := submitRouteW w2 "B" "pB" 0

/-- One clock tick later, before B's first retry check. -/
def w3a : WebState := advanceW w3 1

/-- Build B cancelled while still queued. -/
def w4 : WebState := (cancelRouteW w3 "B").2

/-- One clock tick later, before the retry closure fires again. -/
def w4a : WebState := advanceW w4 1

/-- C9 (counterexample): the web processBuild queue-wait update replaces
the stored logs wholesale — B's record held one entry of timestamp 0
("Build queued"); after one retry tick its logs are a single entry of
timestamp 1 (the position line), so the earlier entry was removed by an
ordinary mutation, not by the retention sweep. -/
theorem C9_counterexample :
    logsTimesAtW w3 "B" = some [0]
    ∧ (processTickW w3a "B" "pB").1 = TickOutcome.retry
    ∧ logsTimesAtW (processTickW w3a "B" "pB").2 "B" = some [1] := by
  refine ⟨?_, ?_, ?_⟩ <;>
    simp [logsTimesAtW, w3a, w3, w2, w1, wInit, submitRouteW, processTickW,
      cancelRouteW, advanceW, updateBuildJobW, setJob, setProjStatus,
      newWebJob, posLogRecord, submittingRecord, queuePosMsg, logEntry,
      BuildQueue.mk0, BuildQueue.add, BuildQueue.startBuild,
      BuildQueue.removeB, BuildQueue.canStartBuild, BuildQueue.getPosition,
      List.mergeSort, itemLE, List.findIdx?]

/-- C6 (counterexample): build B is cancelled (record failed, off the
queue), yet while the slot stays busy the next retry tick still returns
retry and rewrites B's record — its two log entries of timestamp 0 are
replaced by one entry of timestamp 1 — so the loop neither checks
cancellation nor leaves the cancelled record untouched. -/
theorem C6_counterexample :
    statusAtW w4 "B" = some BuildStatus.failed
    ∧ (processTickW w4a "B" "pB").1 = TickOutcome.retry
    ∧ logsTimesAtW w4a "B" = some [0, 0]
    ∧ logsTimesAtW (processTickW w4a "B" "pB").2 "B" = some [1] := by
  refine ⟨?_, ?_, ?_, ?_⟩ <;>
    simp [statusAtW, logsTimesAtW, w4a, w4, w3, w2, w1, wInit, submitRouteW,
      processTickW, cancelRouteW, advanceW, updateBuildJobW, setJob,
      setProjStatus, newWebJob, posLogRecord, submittingRecord,
      cancelledWebRecord, queuePosMsg, logEntry, BuildQueue.mk0,
      BuildQueue.add, BuildQueue.startBuild, BuildQueue.removeB,
      BuildQueue.canStartBuild, BuildQueue.getPosition, List.mergeSort,
      itemLE, List.findIdx?]

/-- Witness for C6_retry_loop_amended at the concrete cancelled-build
state: the tick after the cancel still returns retry. -/
theorem C6_retry_loop_amended_witness :
    (processTickW w4a "B" "pB").1 = TickOutcome.retry :=
  ((C6_retry_loop_amended w4a "B" "pB" "B" "pB").1
    (by simp [w4a, w4, w3, w2, w1, wInit, submitRouteW, processTickW,
      cancelRouteW, advanceW, updateBuildJobW, setJob, setProjStatus,
      newWebJob, posLogRecord, submittingRecord, cancelledWebRecord,
      queuePosMsg, logEntry, BuildQueue.mk0, BuildQueue.add,
      BuildQueue.startBuild, BuildQueue.removeB, BuildQueue.canStartBuild,
      BuildQueue.getPosition, List.mergeSort, itemLE, List.findIdx?])).1

end BuilderWeb
